/-
Verification development for the OAuth credential lifecycle of the
obsidian-axiom-cortex repository.

Shallow embedding of:
  * src/auth/OAuthManager.ts   (credential manager: getApiKey, logout,
    forceRefreshActiveToken, refreshAllIfNeeded, login)
  * src/auth/oauth/index.ts    (provider registry lookup)
  * src/core/rag/ragEngine.ts  (authenticated request wrapper: processQuery
    global-strategy retry logic)
  * src/main.ts                (generateEnvConfig, the Strategy A config
    generator)

Modelling conventions:
  * JS `Record<string, T>` objects are insertion-ordered association lists
    with unique keys (recLookup / recSet / recDelete mirror property read,
    assignment and `delete`).
  * The async methods of OAuthManager are embedded as effect trees (`Comp`):
    synchronous segments mutate the settings state directly; every `await`
    of an external call (provider.refreshToken, provider.login,
    plugin.saveData) is a suspension node carrying the state at suspension
    and a continuation receiving the response together with the state at
    resumption.  `runSeq` executes one computation with no interleaving;
    `runTwo` executes two computations started in the same JS macrotask,
    resuming pending continuations in FIFO (microtask-queue) order.
  * Provider implementations (src/auth/oauth/anthropic.ts etc.) are not part
    of the embedded sources; a provider is abstracted as its synchronous
    `getApiKey` projection plus the environment's answer to its
    refreshToken / login network calls.
  * Synchronous side effects with no bearing on manager state
    (console logging, `new Notice`, syncToLightRagServer's .env rewrite and
    server restart) are not modelled.
  * `Date.now()` is an explicit `now : Nat` parameter (epoch milliseconds).
-/
import Mathlib

namespace Cortex

/-- Credential record per provider (src/auth/oauth types, as used by
OAuthManager.ts and main.ts: fields access, refresh, expires, email,
projectId, accountId, enterpriseUrl). -/
structure OAuthCredentials where
  access : String
  refresh : Option String
  expires : Nat
  email : Option String := none
  projectId : Option String := none
  accountId : Option String := none
  enterpriseUrl : Option String := none
deriving DecidableEq, Repr

/-- Truthiness of an optional string (JS: undefined and "" are falsy). -/
def strOptTruthy : Option String → Bool
  | none => false
  | some s => s ≠ ""

/-- Chat model entry of settings.chatModels (fields used by
generateEnvConfig). -/
structure ChatModel where
  id : String
  providerId : String
  model : String
deriving DecidableEq, Repr

/-- Embedding model entry of settings.embeddingModels (fields used by
generateEnvConfig). -/
structure EmbeddingModel where
  id : String
  providerId : String
  model : String
  dimension : Option Nat
deriving DecidableEq, Repr

/-- Provider entry of settings.providers (fields used by
generateEnvConfig). -/
structure ProviderSetting where
  id : String
  apiKey : Option String
  baseUrl : Option String
deriving DecidableEq, Repr

/-- The slice of NeuralComposerSettings read by the embedded code paths:
OAuthManager.ts (oauthCredentials, lightRagOAuthProvider),
ragEngine.ts (enableAutoStartServer) and main.ts generateEnvConfig
(all remaining fields). -/
structure PluginSettings where
  oauthCredentials : List (String × OAuthCredentials)
  lightRagOAuthProvider : String
  enableAutoStartServer : Bool := false
  lightRagWorkDir : String := ""
  lightRagModelId : String := ""
  chatModelId : String := ""
  lightRagEmbeddingModelId : String := ""
  embeddingModelId : String := ""
  chatModels : List ChatModel := []
  embeddingModels : List EmbeddingModel := []
  providers : List ProviderSetting := []
  lightRagSummaryLanguage : String := ""
  lightRagMaxAsync : Nat := 0
  lightRagMaxParallelInsert : Nat := 0
  lightRagChunkSize : Nat := 0
  lightRagChunkOverlap : Nat := 0
  lightRagRerankBinding : String := ""
  lightRagRerankBindingType : String := ""
  lightRagRerankHost : String := ""
  lightRagRerankModel : String := ""
  lightRagRerankApiKey : String := ""
  useCustomEntityTypes : Bool := false
  lightRagEntityTypes : String := ""
  lightRagCustomEnv : String := ""
deriving DecidableEq, Repr

/-- Property read on a JS string-keyed object (first match; keys are
unique in well-formed objects). -/
def recLookup {α : Type} : List (String × α) → String → Option α
  | [], _ => none
  | (k1, v) :: rest, k => if k1 = k then some v else recLookup rest k

/-- Property assignment `obj[k] = v`: replaces in place when the key is
present (JS objects keep the original insertion position), appends
otherwise. -/
def recSet {α : Type} : List (String × α) → String → α → List (String × α)
  | [], k, v => [(k, v)]
  | (k1, v1) :: rest, k, v =>
      if k1 = k then (k1, v) :: rest else (k1, v1) :: recSet rest k v

/-- Property removal `delete obj[k]`. -/
def recDelete {α : Type} : List (String × α) → String → List (String × α)
  | [], _ => []
  | (k1, v) :: rest, k =>
      if k1 = k then recDelete rest k else (k1, v) :: recDelete rest k

theorem recLookup_recSet_self {α : Type} (m : List (String × α)) (k : String) (v : α) :
    recLookup (recSet m k v) k = some v := by
  induction m with
  | nil => simp [recSet, recLookup]
  | cons hd tl ih =>
      obtain ⟨k1, v1⟩ := hd
      by_cases h : k1 = k <;> simp [recSet, recLookup, h, ih]

theorem recLookup_recSet_ne {α : Type} (m : List (String × α)) (k q : String) (v : α)
    (h : q ≠ k) : recLookup (recSet m k v) q = recLookup m q := by
  have hkq : ¬k = q := fun hh => h hh.symm
  induction m with
  | nil => simp [recSet, recLookup, hkq]
  | cons hd tl ih =>
      obtain ⟨k1, v1⟩ := hd
      by_cases h1 : k1 = k
      · subst h1
        simp [recSet, recLookup, hkq]
      · by_cases h2 : k1 = q <;> simp [recSet, recLookup, h1, h2, h, ih]

theorem recLookup_recDelete_self {α : Type} (m : List (String × α)) (k : String) :
    recLookup (recDelete m k) k = none := by
  induction m with
  | nil => simp [recDelete, recLookup]
  | cons hd tl ih =>
      obtain ⟨k1, v1⟩ := hd
      by_cases h : k1 = k <;> simp [recDelete, recLookup, h, ih]

theorem recLookup_recDelete_ne {α : Type} (m : List (String × α)) (k q : String)
    (h : q ≠ k) : recLookup (recDelete m k) q = recLookup m q := by
  have hkq : ¬k = q := fun hh => h hh.symm
  induction m with
  | nil => simp [recDelete, recLookup]
  | cons hd tl ih =>
      obtain ⟨k1, v1⟩ := hd
      by_cases h1 : k1 = k
      · subst h1
        simp [recDelete, recLookup, hkq, ih]
      · by_cases h2 : k1 = q <;> simp [recDelete, recLookup, h1, h2, h, ih]

/-- Awaited external calls issued by OAuthManager.  `refreshToken` and
`login` are provider network calls; `saveData` is `plugin.saveData`,
carrying the settings snapshot passed to it (the persisted transaction). -/
inductive EffReq where
  | refreshToken (providerId : String) (creds : OAuthCredentials)
  | login (providerId : String)
  | saveData (s : PluginSettings)
deriving DecidableEq, Repr

/-- A running async computation over the shared mutable
`this.plugin.settings` state.  `ret s a` finished with value `a`, all
synchronous mutations applied to `s`.  `eff s req k` suspended at an
`await` of external call `req` with state `s` at suspension; `k` receives
the call's response and the (possibly concurrently modified) state at
resumption. -/
inductive Comp (α : Type) where
  | ret : PluginSettings → α → Comp α
  | eff : PluginSettings → EffReq → (Option OAuthCredentials → PluginSettings → Comp α) → Comp α

/-- The environment answers awaited calls: for `refreshToken`/`login`,
`some creds` is a successful result and `none` a thrown error; the answer
to `saveData` is ignored (persistence is assumed not to throw). -/
def Env : Type := EffReq → Option OAuthCredentials

/-- Run one computation with no concurrent interleaving: every
continuation resumes in the state it suspended in.  Returns the result,
the final settings state, and the awaited requests in issue order (the
result exists only after every listed request completed). -/
def runSeq (env : Env) : Comp α → α × PluginSettings × List EffReq
  | .ret s a => (a, s, [])
  | .eff s req k =>
      let out := runSeq env (k (env req) s)
      (out.1, out.2.1, req :: out.2.2)

/-- An OAuth provider as seen by OAuthManager: its synchronous
`getApiKey(creds)` projection and display name.  (`refreshToken` and
`login` are network calls, answered by the environment.) -/
structure Provider where
  name : String
  getApiKey : OAuthCredentials → String

/-- The provider registry lookup (src/auth/oauth/index.ts
`getOAuthProvider`): a map from provider id to implementation. -/
def Registry : Type := String → Option Provider

/-- OAuthManager.saveCredentials in continuation style: copy the
credential map, assign the provider's record, await plugin.saveData with
the updated settings, then continue.  (The conditional
syncToLightRagServer call performs only external I/O — .env rewrite and
server restart — and is not modelled.) -/
def saveCredentials (pid : String) (creds : OAuthCredentials)
    (k : PluginSettings → Comp α) : PluginSettings → Comp α :=
  fun s =>
    let s1 := { s with oauthCredentials := recSet s.oauthCredentials pid creds }
    Comp.eff s1 (.saveData s1) (fun _ s2 => k s2)

/-- OAuthManager.clearCredentials in continuation style: copy the
credential map, delete the provider's record, clear the active
LightRAG-provider designation when it pointed at this provider, then await
plugin.saveData with the updated settings and continue. -/
def clearCredentials (pid : String) (k : PluginSettings → Comp α) :
    PluginSettings → Comp α :=
  fun s =>
    let s1 := { s with
      oauthCredentials := recDelete s.oauthCredentials pid,
      lightRagOAuthProvider :=
        if s.lightRagOAuthProvider = pid then "" else s.lightRagOAuthProvider }
    Comp.eff s1 (.saveData s1) (fun _ s2 => k s2)

/-- OAuthManager.getApiKey: unknown provider or missing record returns
undefined; an expired record (`Date.now() >= creds.expires`) is refreshed,
the new record saved, and the key of the refreshed record returned; a
refresh failure clears the record and returns undefined. -/
def getApiKey (registry : Registry) (now : Nat) (pid : String) :
    PluginSettings → Comp (Option String) :=
  fun s =>
    match registry pid with
    | none => .ret s none
    | some provider =>
        match recLookup s.oauthCredentials pid with
        | none => .ret s none
        | some creds =>
            if creds.expires ≤ now then
              Comp.eff s (.refreshToken pid creds) (fun resp s1 =>
                match resp with
                | some newCreds =>
                    saveCredentials pid newCreds
                      (fun s2 => .ret s2 (some (provider.getApiKey newCreds))) s1
                | none =>
                    clearCredentials pid (fun s2 => .ret s2 none) s1)
            else .ret s (some (provider.getApiKey creds))

/-- OAuthManager.login: throws `Unknown OAuth provider` when the id is not
registered; otherwise awaits provider.login, saves the credentials and
returns them (a provider.login failure propagates). -/
def login (registry : Registry) (pid : String) :
    PluginSettings → Comp (Except String OAuthCredentials) :=
  fun s =>
    match registry pid with
    | none => .ret s (.error ("Unknown OAuth provider: " ++ pid))
    | some _ =>
        Comp.eff s (.login pid) (fun resp s1 =>
          match resp with
          | some credentials =>
              saveCredentials pid credentials
                (fun s2 => .ret s2 (.ok credentials)) s1
          | none => .ret s1 (.error "login failed"))

/-- OAuthManager.logout: clearCredentials followed by a user notice (the
notice is external I/O, not modelled). -/
def logout (pid : String) : PluginSettings → Comp Unit :=
  fun s => clearCredentials pid (fun s1 => .ret s1 ()) s

/-- OAuthManager.forceRefreshActiveToken: resolves the active LightRAG
provider; returns undefined when none is set, unregistered, or the record
is missing or has no (truthy) refresh token; otherwise refreshes
unconditionally, saves on success and returns the fresh key, or clears the
record on failure and returns undefined. -/
def forceRefreshActiveToken (registry : Registry) :
    PluginSettings → Comp (Option (String × String)) :=
  fun s =>
    let pid := s.lightRagOAuthProvider
    if pid = "" then .ret s none
    else
      match registry pid with
      | none => .ret s none
      | some provider =>
          match recLookup s.oauthCredentials pid with
          | none => .ret s none
          | some creds =>
              if strOptTruthy creds.refresh then
                Comp.eff s (.refreshToken pid creds) (fun resp s1 =>
                  match resp with
                  | some newCreds =>
                      saveCredentials pid newCreds
                        (fun s2 =>
                          .ret s2 (some (pid, provider.getApiKey newCreds))) s1
                  | none =>
                      clearCredentials pid (fun s2 => .ret s2 none) s1)
              else .ret s none

/-- The for-loop body of OAuthManager.refreshAllIfNeeded over the entries
captured from the credential map at sweep start: skip records with a falsy
access token, records expiring after the 10-minute threshold, and
unregistered providers; otherwise refresh, saving on success and retaining
the record on failure. -/
def refreshAllGo (registry : Registry) (now : Nat) :
    List (String × OAuthCredentials) → PluginSettings → Comp Unit
  | [], s => .ret s ()
  | (pid, providerCreds) :: rest, s =>
      if providerCreds.access = "" then refreshAllGo registry now rest s
      else if now + 10 * 60 * 1000 < providerCreds.expires then
        refreshAllGo registry now rest s
      else
        match registry pid with
        | none => refreshAllGo registry now rest s
        | some _ =>
            Comp.eff s (.refreshToken pid providerCreds) (fun resp s1 =>
              match resp with
              | some newCreds =>
                  saveCredentials pid newCreds
                    (fun s2 => refreshAllGo registry now rest s2) s1
              | none => refreshAllGo registry now rest s1)

/-- OAuthManager.refreshAllIfNeeded: sweep every stored record against the
threshold `Date.now() + 10 * 60 * 1000`. -/
def refreshAllIfNeeded (registry : Registry) (now : Nat) :
    PluginSettings → Comp Unit :=
  fun s => refreshAllGo registry now s.oauthCredentials s

/-- A task suspended at an awaited call, tagged with its caller id. -/
structure PendingTask (α : Type) where
  tid : Nat
  req : EffReq
  k : Option OAuthCredentials → PluginSettings → Comp α

/-- FIFO microtask-queue scheduler: resume the oldest pending continuation
with the environment's answer and the current shared state; a task that
suspends again re-enters at the back of the queue.  `tr` accumulates
awaited requests in issue order, `done` the finished tasks. -/
def runQueue (env : Env) :
    Nat → PluginSettings → List (PendingTask α) → List EffReq → List (Nat × α) →
    PluginSettings × List EffReq × List (Nat × α)
  | 0, s, _, tr, done => (s, tr, done)
  | _ + 1, s, [], tr, done => (s, tr, done)
  | fuel + 1, s, p :: rest, tr, done =>
      match p.k (env p.req) s with
      | .ret s1 a => runQueue env fuel s1 rest tr (done ++ [(p.tid, a)])
      | .eff s1 r k1 => runQueue env fuel s1 (rest ++ [⟨p.tid, r, k1⟩]) (tr ++ [r]) done

/-- Run two computations started in the same JS macrotask: task 0 runs
synchronously to its first await, then task 1 runs to its first await on
the state task 0 left behind; afterwards responses are delivered in FIFO
order.  Returns the final shared state, the awaited requests in issue
order, and the tasks' results. -/
def runTwo (env : Env) (fuel : Nat) (s0 : PluginSettings)
    (tA tB : PluginSettings → Comp α) :
    PluginSettings × List EffReq × List (Nat × α) :=
  match tA s0 with
  | .ret s1 a =>
      match tB s1 with
      | .ret s2 b => (s2, [], [(0, a), (1, b)])
      | .eff s2 r k => runQueue env fuel s2 [⟨1, r, k⟩] [r] [(0, a)]
  | .eff s1 rA kA =>
      match tB s1 with
      | .ret s2 b => runQueue env fuel s2 [⟨0, rA, kA⟩] [rA] [(1, b)]
      | .eff s2 rB kB => runQueue env fuel s2 [⟨0, rA, kA⟩, ⟨1, rB, kB⟩] [rA, rB] []

/-- Is this awaited request a provider.refreshToken network call? -/
def isRefreshReq : EffReq → Bool
  | .refreshToken _ _ => true
  | _ => false

/-- Number of provider.refreshToken network calls in a request trace. -/
def countRefreshCalls (tr : List EffReq) : Nat := tr.countP isRefreshReq

/-! ## Authenticated request wrapper (src/core/rag/ragEngine.ts,
RAGEngine.processQuery, global-strategy send with 401/403 retry) -/

/-- Outcome of one HTTP send of the /query request (requestUrl with
`throw: false`): a success body, or a failure status with error text. -/
inductive HttpOutcome where
  | ok (body : String)
  | err (status : Nat) (text : String)
deriving DecidableEq, Repr

/-- Errors thrown by performQuery: `auth` is the typed error carrying
`statusCode` (set only for 401/403); `http` is a generic Error without a
statusCode property. -/
inductive QueryError where
  | auth (status : Nat) (text : String)
  | http (status : Nat) (text : String)
deriving DecidableEq, Repr

/-- RAGEngine.getRequestHeaders: Content-Type plus, when the OAuth token
resolver yields a token, the two Strategy-B headers. -/
def getRequestHeaders (resolverResult : Option (String × String)) :
    List (String × String) :=
  [("Content-Type", "application/json")] ++
    (match resolverResult with
     | some pk => [("X-OAuth-Provider", pk.1), ("X-OAuth-Token", pk.2)]
     | none => [])

/-- The status handling of performQuery: status < 400 returns the body;
401/403 throws the typed auth error (statusCode attached); any other
failure status throws a generic error. -/
def performQuery (outcome : HttpOutcome) : Except QueryError String :=
  match outcome with
  | .ok body => .ok body
  | .err status text =>
      if status = 401 ∨ status = 403 then .error (.auth status text)
      else .error (.http status text)

/-- Observable run of the wrapper: the value or error the surrounding code
receives, the headers of each send in order, whether
forceRefreshActiveToken was invoked, and whether the server-restart
fallback ran. -/
structure WrapperRun where
  result : Except QueryError String
  sends : List (List (String × String))
  refreshCalled : Bool
  restarted : Bool
deriving Repr

/-- RAGEngine.processQuery, global-strategy request logic (the try/catch
around performQuery):
  * first send with resolver-built headers; success is final;
  * a thrown error with statusCode 401/403, when a force-refresh callback
    is installed: invoke it; with a fresh token, rebuild the three headers
    from it and send exactly once more — a second failure of any kind is
    caught by the inner catch, which rethrows the ORIGINAL error; with no
    fresh token, rethrow the original error;
  * otherwise, when enableAutoStartServer is set: restart the server and
    send once more with freshly resolved headers, that send's outcome
    (success or its own error) being final;
  * otherwise rethrow the original error.
`outcome1`/`outcome2` are the HTTP outcomes of the first and (when it
happens) second send; `forceRefreshResult` is what
forceRefreshActiveToken would return. -/
def processQueryRetry (enableAutoStartServer : Bool) (hasForceRefresh : Bool)
    (forceRefreshResult : Option (String × String))
    (resolverResult : Option (String × String))
    (outcome1 outcome2 : HttpOutcome) : WrapperRun :=
  let headers1 := getRequestHeaders resolverResult
  match performQuery outcome1 with
  | .ok data => ⟨.ok data, [headers1], false, false⟩
  | .error firstError =>
      let statusCode : Option Nat :=
        match firstError with
        | .auth st _ => some st
        | .http _ _ => none
      if (statusCode = some 401 ∨ statusCode = some 403) ∧ hasForceRefresh = true then
        match forceRefreshResult with
        | some freshToken =>
            let refreshedHeaders :=
              [("Content-Type", "application/json"),
               ("X-OAuth-Provider", freshToken.1),
               ("X-OAuth-Token", freshToken.2)]
            match performQuery outcome2 with
            | .ok data => ⟨.ok data, [headers1, refreshedHeaders], true, false⟩
            | .error _ => ⟨.error firstError, [headers1, refreshedHeaders], true, false⟩
        | none => ⟨.error firstError, [headers1], true, false⟩
      else if enableAutoStartServer then
        let headers2 := getRequestHeaders resolverResult
        match performQuery outcome2 with
        | .ok data => ⟨.ok data, [headers1, headers2], false, true⟩
        | .error e2 => ⟨.error e2, [headers1, headers2], false, true⟩
      else ⟨.error firstError, [headers1], false, false⟩

/-! ## Strategy A config generator (src/main.ts,
NeuralComposerPlugin.generateEnvConfig) -/

/-- Does the character list start with the given pattern? -/
def dataStartsWith : List Char → List Char → Bool
  | _, [] => true
  | [], _ :: _ => false
  | c :: cs, d :: ds => c = d && dataStartsWith cs ds

/-- Does the character list contain the pattern as a contiguous run?
(JS String.includes.) -/
def dataHasSub : List Char → List Char → Bool
  | [], pat => pat.isEmpty
  | c :: cs, pat => dataStartsWith (c :: cs) pat || dataHasSub cs pat

/-- JS `s.includes(pat)`. -/
def strIncludes (s pat : String) : Bool := dataHasSub s.data pat.data

/-- One character of JSON.stringify string escaping. -/
def jsonEscapeChar (c : Char) : String :=
  if c = '\\' then "\\\\"
  else if c = '\"' then "\\\""
  else if c = '\n' then "\\n"
  else if c = '\r' then "\\r"
  else if c = '\t' then "\\t"
  else String.singleton c

/-- JSON.stringify of a list of strings (no whitespace, double-quoted,
escaped elements). -/
def jsonStringifyList (ts : List String) : String :=
  "[" ++ String.intercalate ","
    (ts.map (fun t => "\"" ++ String.join (t.data.map jsonEscapeChar) ++ "\"")) ++ "]"

/-- NeuralComposerPlugin.generateEnvConfig: serialize the effective
LightRAG configuration (work dir, tuning, model bindings, rerank settings,
provider API keys, entity types, user overrides, and the active OAuth
provider's token mapped onto the API-key variable LightRAG expects) into
the .env text.  Returns "" when no work dir is configured.  The function
reads only `this.settings`; the surrounding try/catch is dead in this
model because no step can throw. -/
def generateEnvConfig (settings : PluginSettings) : String :=
  let workDir := settings.lightRagWorkDir
  if workDir = "" then ""
  else
    let targetLlmId :=
      if settings.lightRagModelId = "" then settings.chatModelId
      else settings.lightRagModelId
    let embeddingId :=
      if settings.lightRagEmbeddingModelId = "" then settings.embeddingModelId
      else settings.lightRagEmbeddingModelId
    let llmModelObj := settings.chatModels.find? (fun m => m.id = targetLlmId)
    let embedModelObj := settings.embeddingModels.find? (fun m => m.id = embeddingId)
    let llmProvider :=
      match llmModelObj with
      | some mo => settings.providers.find? (fun p => p.id = mo.providerId)
      | none => none
    let embedProvider :=
      match embedModelObj with
      | some mo => settings.providers.find? (fun p => p.id = mo.providerId)
      | none => none
    let headerSection :=
      "# Generated by Neural Composer\n" ++
      "# You can edit this file manually before restarting.\n\n" ++
      "WORKING_DIR=" ++ workDir ++ "\n" ++
      "HOST=0.0.0.0\n" ++
      "PORT=9621\n" ++
      "SUMMARY_LANGUAGE=" ++
        (if settings.lightRagSummaryLanguage = "" then "English"
         else settings.lightRagSummaryLanguage) ++ "\n" ++
      "\n# --- Performance Tuning ---\n" ++
      "MAX_ASYNC=" ++ toString settings.lightRagMaxAsync ++ "\n" ++
      "MAX_PARALLEL_INSERT=" ++ toString settings.lightRagMaxParallelInsert ++ "\n" ++
      "CHUNK_SIZE=" ++ toString settings.lightRagChunkSize ++ "\n" ++
      "CHUNK_OVERLAP_SIZE=" ++ toString settings.lightRagChunkOverlap ++ "\n\n"
    let llmSection :=
      match llmModelObj, llmProvider with
      | some mo, some pv =>
          "# LLM Configuration\n" ++
          "LLM_BINDING=" ++ pv.id ++ "\n" ++
          "LLM_MODEL=" ++ mo.model ++ "\n" ++
          (match pv.baseUrl with
           | some u =>
               if pv.id = "ollama" ∧ u ≠ "" then "OLLAMA_HOST=" ++ u ++ "\n"
               else if pv.id = "openai" ∧ strIncludes u "localhost" = true then
                 "OPENAI_BASE_URL=" ++ u ++ "\n"
               else ""
           | none => "")
      | _, _ => ""
    let embedSection :=
      match embedModelObj, embedProvider with
      | some mo, some pv =>
          "\n# Embedding Configuration\n" ++
          "EMBEDDING_BINDING=" ++ pv.id ++ "\n" ++
          "EMBEDDING_MODEL=" ++ mo.model ++ "\n" ++
          "EMBEDDING_DIM=" ++
            toString (match mo.dimension with
              | some d => if d = 0 then 1024 else d
              | none => 1024) ++ "\n" ++
          "MAX_TOKEN_SIZE=8192\n"
      | _, _ => ""
    let rerankSelection := settings.lightRagRerankBinding
    let rerankSection :=
      if rerankSelection ≠ "" then
        let realBindingName :=
          if rerankSelection = "custom" then
            (if settings.lightRagRerankBindingType = "" then "cohere"
             else settings.lightRagRerankBindingType)
          else rerankSelection
        let hostLines :=
          if rerankSelection = "custom" then
            "RERANK_BINDING_HOST=" ++ settings.lightRagRerankHost ++ "\n"
          else
            (if rerankSelection = "jina" then
               "RERANK_BINDING_HOST=https://api.jina.ai/v1/rerank\n" else "") ++
            (if rerankSelection = "cohere" then
               "RERANK_BINDING_HOST=https://api.cohere.com/v2/rerank\n" else "")
        "\n# Reranking Configuration\n" ++ hostLines ++
        "RERANK_BINDING=" ++ realBindingName ++ "\n" ++
        "RERANK_MODEL=" ++ settings.lightRagRerankModel ++ "\n" ++
        (if settings.lightRagRerankApiKey ≠ "" then
           "RERANK_BINDING_API_KEY=" ++ settings.lightRagRerankApiKey ++ "\n"
         else "")
      else "\n# Reranking Disabled\n" ++ "RERANK_BINDING=null\n"
    let providersNeeded : List (Option ProviderSetting) :=
      if llmProvider = embedProvider then [llmProvider]
      else [llmProvider, embedProvider]
    let apiKeySection :=
      "\n# API Keys\n" ++
      String.join (providersNeeded.map (fun p? =>
        match p? with
        | some p =>
            match p.apiKey with
            | some key =>
                if key = "" then ""
                else
                  let keyName := p.id.toUpper
                  (if keyName = "GEMINI" then "GEMINI_API_KEY=" ++ key ++ "\n" else "") ++
                  (if keyName = "OPENAI" then "OPENAI_API_KEY=" ++ key ++ "\n" else "") ++
                  (if keyName = "ANTHROPIC" then "ANTHROPIC_API_KEY=" ++ key ++ "\n" else "")
            | none => ""
        | none => ""))
    let entitySection :=
      if settings.useCustomEntityTypes then
        let rawTypes := settings.lightRagEntityTypes
        if rawTypes.trim ≠ "" then
          let typeList :=
            ((rawTypes.splitOn ",").map String.trim).filter (fun t => t ≠ "")
          "\nENTITY_TYPES=\x27" ++ jsonStringifyList typeList ++ "\x27\n"
        else ""
      else ""
    let customSection :=
      if settings.lightRagCustomEnv ≠ "" then
        "\n\n#####################################\n" ++
        "### USER CUSTOM CONFIGURATION     ###\n" ++
        "### (Overrides defaults above)    ###\n" ++
        "#####################################\n" ++
        settings.lightRagCustomEnv ++ "\n"
      else ""
    let oauthSection :=
      if settings.lightRagOAuthProvider ≠ "" then
        let providerId := settings.lightRagOAuthProvider
        match recLookup settings.oauthCredentials providerId with
        | some creds =>
            "\n# OAuth Token (auto-managed by Axiom Cortex)\n" ++
            "OAUTH_PROVIDER=" ++ providerId ++ "\n" ++
            (if providerId = "anthropic" then
               "ANTHROPIC_API_KEY=" ++ creds.access ++ "\n"
             else if providerId = "openai-codex" then
               "OPENAI_API_KEY=" ++ creds.access ++ "\n"
             else if providerId = "google-antigravity" ∨ providerId = "google-gemini-cli" then
               "GEMINI_API_KEY=" ++ creds.access ++ "\n" ++
               (if strOptTruthy creds.projectId then
                  "GOOGLE_CLOUD_PROJECT=" ++ creds.projectId.getD "" ++ "\n"
                else "")
             else if providerId = "github-copilot" then
               "OPENAI_API_KEY=" ++ creds.access ++ "\n" ++
               (if strOptTruthy creds.enterpriseUrl then
                  "COPILOT_ENTERPRISE_URL=" ++ creds.enterpriseUrl.getD "" ++ "\n"
                else "")
             else "") ++
            "OAUTH_ACCESS_TOKEN=" ++ creds.access ++ "\n" ++
            (if strOptTruthy creds.projectId then
               "OAUTH_PROJECT_ID=" ++ creds.projectId.getD "" ++ "\n"
             else "") ++
            (if strOptTruthy creds.accountId then
               "OAUTH_ACCOUNT_ID=" ++ creds.accountId.getD "" ++ "\n"
             else "")
        | none => ""
      else ""
    headerSection ++ llmSection ++ embedSection ++ rerankSection ++
      apiKeySection ++ entitySection ++ customSection ++ oauthSection

/-! ## Concrete instances used by witnesses and counterexamples -/

/-- An expired credential record with a refresh token. -/
def exCreds : OAuthCredentials :=
  { access := "tok-old", refresh := some "ref-1", expires := 1000 }

/-- The record a successful refresh produces. -/
def exNewCreds : OAuthCredentials :=
  { access := "tok-new", refresh := some "ref-2", expires := 5000000 }

/-- A far-from-expiry record for a second provider. -/
def exCredsOther : OAuthCredentials :=
  { access := "tok-b", refresh := some "ref-b", expires := 99999999 }

/-- A record with no refresh token. -/
def exCredsNoRefresh : OAuthCredentials :=
  { access := "tok-x", refresh := none, expires := 1000 }

/-- A provider whose key projection returns the access token. -/
def exProvider : Provider := { name := "Anthropic", getApiKey := fun c => c.access }

/-- A registry with the anthropic and github-copilot ids registered. -/
def exRegistry : Registry := fun pid =>
  if pid = "anthropic" ∨ pid = "github-copilot" then some exProvider else none

/-- An environment whose refresh calls all succeed with `exNewCreds`. -/
def exEnvOk : Env := fun req =>
  match req with
  | .refreshToken _ _ => some exNewCreds
  | _ => none

/-- An environment whose awaited calls all fail. -/
def exEnvFail : Env := fun _ => none

/-- Settings with one expired anthropic record, anthropic active. -/
def exSettings : PluginSettings :=
  { oauthCredentials := [("anthropic", exCreds)], lightRagOAuthProvider := "anthropic" }

/-- Settings with two records, anthropic active. -/
def exSettingsTwo : PluginSettings :=
  { oauthCredentials := [("anthropic", exCreds), ("github-copilot", exCredsOther)],
    lightRagOAuthProvider := "anthropic" }

/-- Settings whose active provider's record has no refresh token. -/
def exSettingsNoRefresh : PluginSettings :=
  { oauthCredentials := [("anthropic", exCredsNoRefresh)],
    lightRagOAuthProvider := "anthropic" }

/-! ## Claims -/

/-- C2: a refresh failure during getApiKey clears the provider's record
and returns undefined; a refresh failure during forceRefreshActiveToken
(with the provider active and a refresh token present) clears the record
and returns undefined; a refresh failure during refreshAllIfNeeded leaves
the provider's record exactly as it was before the sweep. -/
theorem refresh_failure_cleanup (env : Env) (registry : Registry) (now : Nat) (pid : String) :
    (∀ provider creds s, registry pid = some provider →
      recLookup s.oauthCredentials pid = some creds →
      creds.expires ≤ now →
      env (.refreshToken pid creds) = none →
      (runSeq env (getApiKey registry now pid s)).1 = none ∧
      recLookup (runSeq env (getApiKey registry now pid s)).2.1.oauthCredentials pid = none) ∧
    (∀ provider creds s, s.lightRagOAuthProvider = pid → pid ≠ "" →
      registry pid = some provider →
      recLookup s.oauthCredentials pid = some creds →
      strOptTruthy creds.refresh = true →
      env (.refreshToken pid creds) = none →
      (runSeq env (forceRefreshActiveToken registry s)).1 = none ∧
      recLookup (runSeq env (forceRefreshActiveToken registry s)).2.1.oauthCredentials pid = none) ∧
    (∀ s, (∀ c, env (.refreshToken pid c) = none) →
      recLookup (runSeq env (refreshAllIfNeeded registry now s)).2.1.oauthCredentials pid =
        recLookup s.oauthCredentials pid) := by
  refine ⟨?_, ?_, ?_⟩
  · intro provider creds s hreg hcred hexp henv
    constructor <;>
      simp [getApiKey, hreg, hcred, hexp, runSeq, henv, clearCredentials,
        recLookup_recDelete_self]
  · intro provider creds s hact hne hreg hcred hrefresh henv
    constructor <;>
      simp [forceRefreshActiveToken, hact, hne, hreg, hcred, hrefresh, runSeq, henv,
        clearCredentials, recLookup_recDelete_self]
  · intro s hfail
    have main : ∀ entries t,
        recLookup (runSeq env (refreshAllGo registry now entries t)).2.1.oauthCredentials pid =
          recLookup t.oauthCredentials pid := by
      intro entries
      induction entries with
      | nil => intro t; simp [refreshAllGo, runSeq]
      | cons hd rest ih =>
          intro t
          obtain ⟨q, c⟩ := hd
          by_cases hacc : c.access = ""
          · simp [refreshAllGo, hacc, ih]
          · by_cases hexp : now + 10 * 60 * 1000 < c.expires
            · simp [refreshAllGo, hacc, hexp, ih]
            · cases hreg : registry q with
              | none => simp [refreshAllGo, hacc, hexp, hreg, ih]
              | some prov =>
                  by_cases hq : q = pid
                  · subst hq
                    simp [refreshAllGo, hacc, hexp, hreg, runSeq, hfail c, ih]
                  · cases hresp : env (.refreshToken q c) with
                    | none => simp [refreshAllGo, hacc, hexp, hreg, runSeq, hresp, ih]
                    | some nc =>
                        simp [refreshAllGo, hacc, hexp, hreg, runSeq, hresp,
                          saveCredentials, ih,
                          recLookup_recSet_ne _ q pid nc fun hh => hq hh.symm]
    exact main s.oauthCredentials s

/-- C2 witness: concrete failing refresh on the lazy path, the reactive
path, and the sweep. -/
theorem refresh_failure_cleanup_witness :
    ((runSeq exEnvFail (getApiKey exRegistry 2000 "anthropic" exSettings)).1 = none ∧
     recLookup (runSeq exEnvFail
       (getApiKey exRegistry 2000 "anthropic" exSettings)).2.1.oauthCredentials "anthropic" = none) ∧
    ((runSeq exEnvFail (forceRefreshActiveToken exRegistry exSettings)).1 = none ∧
     recLookup (runSeq exEnvFail
       (forceRefreshActiveToken exRegistry exSettings)).2.1.oauthCredentials "anthropic" = none) ∧
    recLookup (runSeq exEnvFail
      (refreshAllIfNeeded exRegistry 2000 exSettings)).2.1.oauthCredentials "anthropic" =
      recLookup exSettings.oauthCredentials "anthropic" :=
  ⟨(refresh_failure_cleanup exEnvFail exRegistry 2000 "anthropic").1 exProvider exCreds
      exSettings rfl rfl (by decide) rfl,
   (refresh_failure_cleanup exEnvFail exRegistry 2000 "anthropic").2.1 exProvider exCreds
      exSettings rfl (by decide) rfl rfl (by decide) rfl,
   (refresh_failure_cleanup exEnvFail exRegistry 2000 "anthropic").2.2 exSettings
      (fun _ => rfl)⟩

/-- C3 counterexample: with the active provider's record lacking a refresh
token, forceRefreshActiveToken returns absent yet the record is STILL
stored afterwards — the claim that the provider has no stored record
afterwards is false. -/
theorem forceRefresh_no_token_record_kept :
    (runSeq exEnvOk (forceRefreshActiveToken exRegistry exSettingsNoRefresh)).1 = none ∧
    recLookup (runSeq exEnvOk
      (forceRefreshActiveToken exRegistry exSettingsNoRefresh)).2.1.oauthCredentials
      "anthropic" = some exCredsNoRefresh := by
  exact ⟨rfl, rfl⟩

/-- C3 amended: when the active provider's stored record has no (truthy)
refresh token, forceRefreshActiveToken returns absent WITHOUT attempting a
refresh, persisting anything, or clearing the record: the settings are
exactly unchanged and no external call is awaited. -/
theorem forceRefresh_no_token_returns_absent (env : Env) (registry : Registry)
    (provider : Provider) (creds : OAuthCredentials) (s : PluginSettings) (pid : String)
    (hact : s.lightRagOAuthProvider = pid) (hne : pid ≠ "")
    (hreg : registry pid = some provider)
    (hcred : recLookup s.oauthCredentials pid = some creds)
    (hnoref : strOptTruthy creds.refresh = false) :
    runSeq env (forceRefreshActiveToken registry s) = (none, s, []) := by
  simp [forceRefreshActiveToken, hact, hne, hreg, hcred, hnoref, runSeq]

/-- C3 amended witness: the concrete no-refresh-token record. -/
theorem forceRefresh_no_token_returns_absent_witness :
    runSeq exEnvOk (forceRefreshActiveToken exRegistry exSettingsNoRefresh) =
      (none, exSettingsNoRefresh, []) :=
  forceRefresh_no_token_returns_absent exEnvOk exRegistry exProvider exCredsNoRefresh
    exSettingsNoRefresh "anthropic" rfl (by decide) rfl rfl (by decide)

/-- The settings state clearCredentials builds and persists: the
provider's record deleted and the active designation cleared when it
pointed at that provider. -/
def clearedSettings (s : PluginSettings) (pid : String) : PluginSettings :=
  { s with
    oauthCredentials := recDelete s.oauthCredentials pid,
    lightRagOAuthProvider :=
      if s.lightRagOAuthProvider = pid then "" else s.lightRagOAuthProvider }

/-- C5: logout(P) deletes exactly P's record, clears the active-source
designation when it pointed at P, leaves every other record unchanged, and
performs all of it in a single persisted transaction: the one saveData
call carries the final state with both changes already applied. -/
theorem logout_frame (env : Env) (pid : String) (s : PluginSettings) :
    runSeq env (logout pid s) =
      ((), clearedSettings s pid, [.saveData (clearedSettings s pid)]) ∧
    recLookup (recDelete s.oauthCredentials pid) pid = none ∧
    ∀ q, q ≠ pid → recLookup (recDelete s.oauthCredentials pid) q =
      recLookup s.oauthCredentials q := by
  refine ⟨?_, recLookup_recDelete_self s.oauthCredentials pid, ?_⟩
  · simp [logout, clearCredentials, clearedSettings, runSeq]
  · intro q hq
    exact recLookup_recDelete_ne s.oauthCredentials pid q hq

/-- C5 witness: logging out the active provider of a two-record store. -/
theorem logout_frame_witness :
    recLookup (recDelete exSettingsTwo.oauthCredentials "anthropic") "github-copilot" =
      recLookup exSettingsTwo.oauthCredentials "github-copilot" :=
  (logout_frame exEnvOk "anthropic" exSettingsTwo).2.2 "github-copilot" (by decide)

/-- C8: a successful refresh inside getApiKey issues exactly the refresh
call followed by the saveData call whose persisted snapshot already holds
the new record, and only then returns the refreshed key: `runSeq` delivers
its result only after every request in the returned trace completed, so
persistence finishes before any caller observes the new token. -/
theorem getApiKey_persist_before_return (env : Env) (registry : Registry) (now : Nat)
    (pid : String) (provider : Provider) (creds newCreds : OAuthCredentials)
    (s : PluginSettings)
    (hreg : registry pid = some provider)
    (hcred : recLookup s.oauthCredentials pid = some creds)
    (hexp : creds.expires ≤ now)
    (henv : env (.refreshToken pid creds) = some newCreds) :
    runSeq env (getApiKey registry now pid s) =
      (some (provider.getApiKey newCreds),
       { s with oauthCredentials := recSet s.oauthCredentials pid newCreds },
       [.refreshToken pid creds,
        .saveData { s with oauthCredentials := recSet s.oauthCredentials pid newCreds }]) ∧
    recLookup (recSet s.oauthCredentials pid newCreds) pid = some newCreds := by
  constructor
  · simp [getApiKey, hreg, hcred, hexp, runSeq, henv, saveCredentials]
  · exact recLookup_recSet_self s.oauthCredentials pid newCreds

/-- C8 witness: the expired anthropic record refreshed at now = 2000. -/
theorem getApiKey_persist_before_return_witness :
    runSeq exEnvOk (getApiKey exRegistry 2000 "anthropic" exSettings) =
      (some (exProvider.getApiKey exNewCreds),
       { exSettings with
          oauthCredentials := recSet exSettings.oauthCredentials "anthropic" exNewCreds },
       [.refreshToken "anthropic" exCreds,
        .saveData { exSettings with
          oauthCredentials := recSet exSettings.oauthCredentials "anthropic" exNewCreds }]) :=
  (getApiKey_persist_before_return exEnvOk exRegistry 2000 "anthropic" exProvider exCreds
    exNewCreds exSettings rfl rfl (by decide) rfl).1

/-- C10: for an id absent from the provider registry, getApiKey returns
undefined with the settings unchanged and no external call awaited, while
login fails with the Unknown OAuth provider error. -/
theorem getApiKey_unknown_provider (env : Env) (registry : Registry) (now : Nat)
    (pid : String) (s : PluginSettings) (hreg : registry pid = none) :
    runSeq env (getApiKey registry now pid s) = (none, s, []) ∧
    runSeq env (login registry pid s) =
      (Except.error ("Unknown OAuth provider: " ++ pid), s, []) := by
  constructor <;> simp [getApiKey, login, hreg, runSeq]

/-- C10 witness: the unregistered id "mystery". -/
theorem getApiKey_unknown_provider_witness :
    runSeq exEnvOk (getApiKey exRegistry 2000 "mystery" exSettings) =
      (none, exSettings, []) ∧
    runSeq exEnvOk (login exRegistry "mystery" exSettings) =
      (Except.error ("Unknown OAuth provider: " ++ "mystery"), exSettings, []) :=
  getApiKey_unknown_provider exEnvOk exRegistry 2000 "mystery" exSettings rfl

/-- C6: refreshAllIfNeeded refreshes exactly the stored records whose
expiry lies within the 10-minute look-ahead window of now: a single
stored record (well-formed and registered) is refreshed iff
`expires ≤ now + 10min`; and in a two-record sweep the record expiring at
now + 9min is refreshed while the record expiring at now + 20min is left
untouched, with exactly one refresh call issued. -/
theorem refreshAll_window (env : Env) (registry : Registry) :
    (∀ now pid c prov s, s.oauthCredentials = [(pid, c)] → c.access ≠ "" →
      registry pid = some prov →
      (EffReq.refreshToken pid c ∈ (runSeq env (refreshAllIfNeeded registry now s)).2.2 ↔
        c.expires ≤ now + 10 * 60 * 1000)) ∧
    (∀ now a b ca cb ca2 prova provb s, a ≠ b →
      s.oauthCredentials = [(a, ca), (b, cb)] →
      ca.access ≠ "" → cb.access ≠ "" →
      registry a = some prova → registry b = some provb →
      ca.expires = now + 9 * 60 * 1000 →
      cb.expires = now + 20 * 60 * 1000 →
      env (.refreshToken a ca) = some ca2 →
      countRefreshCalls (runSeq env (refreshAllIfNeeded registry now s)).2.2 = 1 ∧
      EffReq.refreshToken a ca ∈ (runSeq env (refreshAllIfNeeded registry now s)).2.2 ∧
      recLookup (runSeq env (refreshAllIfNeeded registry now s)).2.1.oauthCredentials a =
        some ca2 ∧
      recLookup (runSeq env (refreshAllIfNeeded registry now s)).2.1.oauthCredentials b =
        some cb) := by
  constructor
  · intro now pid c prov s hs hacc hreg
    by_cases hw : now + 10 * 60 * 1000 < c.expires
    · simp [refreshAllIfNeeded, hs, refreshAllGo, hacc, hw, runSeq]
      try omega
    · cases hresp : env (.refreshToken pid c) with
      | none =>
          simp [refreshAllIfNeeded, hs, refreshAllGo, hacc, hw, hreg, runSeq, hresp]
          try omega
      | some nc =>
          simp [refreshAllIfNeeded, hs, refreshAllGo, hacc, hw, hreg, runSeq, hresp,
            saveCredentials]
          try omega
  · intro now a b ca cb ca2 prova provb s hab hs hacca haccb hrega hregb hexpa hexpb henv
    have hwa : ¬now + 10 * 60 * 1000 < ca.expires := by omega
    have hwb : now + 10 * 60 * 1000 < cb.expires := by omega
    refine ⟨?_, ?_, ?_, ?_⟩ <;>
      simp [refreshAllIfNeeded, hs, refreshAllGo, hacca, haccb, hwa, hwb, hrega, hregb,
        runSeq, henv, saveCredentials, countRefreshCalls, isRefreshReq, recSet,
        recLookup, hab]

/-- C6 witness: a sweep at now = 0 over records expiring at 9 and 20
minutes. -/
theorem refreshAll_window_witness :
    (EffReq.refreshToken "anthropic"
        { access := "A", refresh := none, expires := 540000 } ∈
      (runSeq exEnvOk (refreshAllIfNeeded exRegistry 0
        { oauthCredentials :=
            [("anthropic", { access := "A", refresh := none, expires := 540000 })],
          lightRagOAuthProvider := "" })).2.2 ↔
      (540000 : Nat) ≤ 0 + 10 * 60 * 1000) ∧
    countRefreshCalls (runSeq exEnvOk (refreshAllIfNeeded exRegistry 0
      { oauthCredentials :=
          [("anthropic", { access := "A", refresh := none, expires := 540000 }),
           ("github-copilot", { access := "B", refresh := none, expires := 1200000 })],
        lightRagOAuthProvider := "" })).2.2 = 1 :=
  ⟨(refreshAll_window exEnvOk exRegistry).1 0 "anthropic"
      { access := "A", refresh := none, expires := 540000 } exProvider _ rfl
      (by decide) rfl,
   ((refreshAll_window exEnvOk exRegistry).2 0 "anthropic" "github-copilot"
      { access := "A", refresh := none, expires := 540000 }
      { access := "B", refresh := none, expires := 1200000 }
      exNewCreds exProvider exProvider _ (by decide) rfl (by decide) (by decide)
      rfl rfl (by decide) (by decide) rfl).1⟩

/-- C4: in the wrapper with a force-refresh callback installed, a 401/403
on the first send invokes the force-refresh; with a fresh key there is
exactly one retry whose headers are rebuilt from the refreshed token, and
its success is final; if the retry fails with 401/403 too, the ORIGINAL
auth error is surfaced with no third send; if the force-refresh returns
absent, the original auth error is surfaced after the single send. -/
theorem wrapper_auth_retry (auto : Bool) (st st2 : Nat) (t1 t2 body : String)
    (resolver : Option (String × String)) (pk : String × String)
    (h1 : st = 401 ∨ st = 403) :
    (processQueryRetry auto true (some pk) resolver (.err st t1) (.ok body) =
      ⟨.ok body,
       [getRequestHeaders resolver,
        [("Content-Type", "application/json"), ("X-OAuth-Provider", pk.1),
         ("X-OAuth-Token", pk.2)]], true, false⟩) ∧
    ((st2 = 401 ∨ st2 = 403) →
      processQueryRetry auto true (some pk) resolver (.err st t1) (.err st2 t2) =
      ⟨.error (.auth st t1),
       [getRequestHeaders resolver,
        [("Content-Type", "application/json"), ("X-OAuth-Provider", pk.1),
         ("X-OAuth-Token", pk.2)]], true, false⟩) ∧
    (∀ o2, processQueryRetry auto true none resolver (.err st t1) o2 =
      ⟨.error (.auth st t1), [getRequestHeaders resolver], true, false⟩) := by
  refine ⟨?_, ?_, ?_⟩
  · rcases h1 with h | h <;> subst h <;> simp [processQueryRetry, performQuery]
  · intro h2
    rcases h1 with h | h <;> rcases h2 with h2 | h2 <;> subst h <;> subst h2 <;>
      simp [processQueryRetry, performQuery]
  · intro o2
    rcases h1 with h | h <;> subst h <;> simp [processQueryRetry, performQuery]

/-- C4 witness: a 401 then a 403 and the absent-refresh case, with the
anthropic token pair. -/
theorem wrapper_auth_retry_witness :
    (processQueryRetry false true (some ("anthropic", "key")) none
        (.err 401 "denied") (.ok "data") =
      ⟨.ok "data",
       [getRequestHeaders none,
        [("Content-Type", "application/json"), ("X-OAuth-Provider", "anthropic"),
         ("X-OAuth-Token", "key")]], true, false⟩) ∧
    (processQueryRetry false true (some ("anthropic", "key")) none
        (.err 401 "denied") (.err 403 "again") =
      ⟨.error (.auth 401 "denied"),
       [getRequestHeaders none,
        [("Content-Type", "application/json"), ("X-OAuth-Provider", "anthropic"),
         ("X-OAuth-Token", "key")]], true, false⟩) ∧
    (processQueryRetry false true none none (.err 401 "denied") (.ok "data") =
      ⟨.error (.auth 401 "denied"), [getRequestHeaders none], true, false⟩) :=
  ⟨(wrapper_auth_retry false 401 403 "denied" "again" "data" none
      ("anthropic", "key") (Or.inl rfl)).1,
   (wrapper_auth_retry false 401 403 "denied" "again" "data" none
      ("anthropic", "key") (Or.inl rfl)).2.1 (Or.inr rfl),
   (wrapper_auth_retry false 401 403 "denied" "again" "data" none
      ("anthropic", "key") (Or.inl rfl)).2.2 (.ok "data")⟩

/-- C7 counterexample: with enableAutoStartServer on, a non-auth HTTP 500
is NOT propagated directly — the wrapper restarts the server and retries,
and a successful retry hides the original failure entirely (while still
never force-refreshing). -/
theorem wrapper_nonauth_restarts_instead :
    (processQueryRetry true true none none (.err 500 "boom") (.ok "recovered")).result =
      Except.ok "recovered" ∧
    (processQueryRetry true true none none (.err 500 "boom") (.ok "recovered")).sends.length = 2 ∧
    (processQueryRetry true true none none (.err 500 "boom") (.ok "recovered")).refreshCalled =
      false :=
  ⟨rfl, rfl, rfl⟩

/-- C7 amended: a non-401/403 HTTP failure never triggers a force-refresh;
with enableAutoStartServer off it is propagated directly after the single
send, and with it on the wrapper restarts the server and sends exactly
once more, that second outcome being final. -/
theorem wrapper_nonauth_no_refresh (auto hasFR : Bool) (st : Nat) (t : String)
    (resolver fresh : Option (String × String)) (o2 : HttpOutcome)
    (hst : 400 ≤ st) (h1 : st ≠ 401) (h3 : st ≠ 403) :
    (processQueryRetry auto hasFR fresh resolver (.err st t) o2).refreshCalled = false ∧
    (auto = false →
      processQueryRetry auto hasFR fresh resolver (.err st t) o2 =
        ⟨.error (.http st t), [getRequestHeaders resolver], false, false⟩) ∧
    (auto = true →
      processQueryRetry auto hasFR fresh resolver (.err st t) o2 =
        ⟨performQuery o2, [getRequestHeaders resolver, getRequestHeaders resolver],
         false, true⟩) := by
  have hcond : ¬(st = 401 ∨ st = 403) := fun h => h.elim h1 h3
  have h1q : performQuery (.err st t) = .error (.http st t) := by
    simp [performQuery, hcond]
  refine ⟨?_, ?_, ?_⟩
  · cases auto
    · simp [processQueryRetry, h1q]
    · cases hpq : performQuery o2 <;> simp [processQueryRetry, h1q, hpq]
  · intro ha
    subst ha
    simp [processQueryRetry, h1q]
  · intro ha
    subst ha
    cases hpq : performQuery o2 <;> simp [processQueryRetry, h1q, hpq]

/-- C7 amended witness: a 500 with auto-start off propagates directly. -/
theorem wrapper_nonauth_no_refresh_witness :
    (processQueryRetry false true none none (.err 500 "boom") (.ok "x")).refreshCalled =
      false ∧
    processQueryRetry false true none none (.err 500 "boom") (.ok "x") =
      ⟨.error (.http 500 "boom"), [getRequestHeaders none], false, false⟩ :=
  ⟨(wrapper_nonauth_no_refresh false true 500 "boom" none none (.ok "x")
      (by decide) (by decide) (by decide)).1,
   (wrapper_nonauth_no_refresh false true 500 "boom" none none (.ok "x")
      (by decide) (by decide) (by decide)).2.1 rfl⟩

/-- Settings exercising every section of generateEnvConfig. -/
def exEnvSettings : PluginSettings :=
  { oauthCredentials := [("anthropic", exNewCreds)],
    lightRagOAuthProvider := "anthropic",
    lightRagWorkDir := "/vault/rag",
    chatModelId := "cm1",
    embeddingModelId := "em1",
    chatModels := [{ id := "cm1", providerId := "anthropic", model := "claude" }],
    embeddingModels :=
      [{ id := "em1", providerId := "openai", model := "embed", dimension := some 1536 }],
    providers :=
      [{ id := "anthropic", apiKey := some "ak", baseUrl := none },
       { id := "openai", apiKey := some "ok", baseUrl := some "http://localhost:1234" }],
    lightRagMaxAsync := 4,
    lightRagMaxParallelInsert := 2,
    lightRagChunkSize := 1200,
    lightRagChunkOverlap := 100,
    lightRagRerankBinding := "jina",
    lightRagRerankModel := "jina-reranker",
    lightRagRerankApiKey := "rk",
    useCustomEntityTypes := true,
    lightRagEntityTypes := "person, place",
    lightRagCustomEnv := "EXTRA=1" }

/-- C9: generateEnvConfig reads nothing but the settings value (no clock,
no randomness appears anywhere in its embedding), so two invocations on
identical settings and credential state produce byte-identical text. -/
theorem generateEnvConfig_deterministic (s1 s2 : PluginSettings) (h : s1 = s2) :
    generateEnvConfig s1 = generateEnvConfig s2 := by rw [h]

/-- C9 witness: two invocations on the exercising settings agree. -/
theorem generateEnvConfig_deterministic_witness :
    generateEnvConfig exEnvSettings = generateEnvConfig exEnvSettings :=
  generateEnvConfig_deterministic exEnvSettings exEnvSettings rfl

/-- C1 (divergence evidence): getApiKey has no single-flight lock, so two
calls for the same expired provider record started in the same JS tick
BOTH run their expiry check before either refresh resolves and each
invokes provider.refreshToken: the concurrent pair issues two network
refresh calls where the spec's single-flight contract demands exactly one
(both callers do end up observing the same refreshed key). -/
theorem getApiKey_concurrent_double_refresh :
    countRefreshCalls
      (runTwo exEnvOk 10 exSettings
        (getApiKey exRegistry 2000 "anthropic")
        (getApiKey exRegistry 2000 "anthropic")).2.1 = 2 ∧
    (runTwo exEnvOk 10 exSettings
        (getApiKey exRegistry 2000 "anthropic")
        (getApiKey exRegistry 2000 "anthropic")).2.2 =
      [(0, some "tok-new"), (1, some "tok-new")] :=
  ⟨rfl, rfl⟩

end Cortex
